import Mathlib

/-!
# Pixhub gallery backend (`src/index.js`)

A shallow embedding of the gallery routes of the Express/MongoDB server:

* `POST   /api/gallery`                              (`createGallery`)
* `GET    /api/gallery/user/:ownerId`                (`listByOwner`)
* `DELETE /api/gallery/:id`                          (`deleteGallery`)
* `POST   /api/gallery/:galleryId/:userId/media`     (`ingest`)

The two MongoDB collections are lists of documents in natural (insertion)
order.  Each route handler is a function from the request and the store to
a response and the next store; the `try { ... } catch { 500 }` wrapper of
every handler is modelled with `Except`: a throwing call returns `.error`,
and the handler built on it answers 500 with the store as it was.

What the handlers take from their libraries is modelled as follows.

* `new ObjectId(s)` accepts a string of 24 hexadecimal digits and throws on
  any other string (`ObjectId.parse`).
* The database is connected and answers; the only driver call that can throw
  is `insertOne`, on an `_id` that is already present.
* The clock and the `_id` generated for an inserted document are inputs of
  a call (`Env`).
* `req.body` is either undefined (no body was parsed) or an object whose
  fields are arbitrary JSON values (`JsValue`); an array, which has none of
  the three fields, is the object with all three undefined.
* On a value that is not a string the result of `new ObjectId(v)` is left
  open: it is an input of the call (`Converted`).
-/

namespace Pixhub

/-! ## Identifiers -/

/-- A BSON object id: the value of its twelve bytes, read as one number. -/
abbrev ObjectId := Nat

/-- Value of one hexadecimal digit, `none` for any other character. -/
def hexDigit? (c : Char) : Option Nat :=
  let n := c.toNat
  if 48 ≤ n ∧ n ≤ 57 then some (n - 48)
  else if 97 ≤ n ∧ n ≤ 102 then some (n - 87)
  else if 65 ≤ n ∧ n ≤ 70 then some (n - 55)
  else none

/-- Big-endian value of a string of hexadecimal digits, starting from `acc`. -/
def hexValue? : List Char → Nat → Option Nat
  | [], acc => some acc
  | c :: cs, acc =>
    match hexDigit? c with
    | some d => hexValue? cs (16 * acc + d)
    | none => none

/-- The call `new ObjectId(s)` of the driver on a string `s`: a string of
exactly 24 hexadecimal digits (either case) denotes the id with those twelve
bytes; on any other string the constructor throws, which is `none` here. -/
def ObjectId.parse (s : String) : Option ObjectId :=
  if s.data.length = 24 then hexValue? s.data 0 else none

/-! ## Values of a JSON body -/

/-- A value of a field of `req.body`: `undefined` for a field that is
absent, `number` for a number, given by the 64 bits of its IEEE 754 double
(`number 0` is the number 0), `object` for an array or an object, given by
its JSON text. -/
inductive JsValue
  | undefined
  | null
  | bool (b : Bool)
  | number (bits : Nat)
  | string (s : String)
  | object (json : String)
  deriving DecidableEq, Repr

/-- Whether a double, given by its bits, is `+0`, `-0` or a NaN. -/
def zeroOrNaN (bits : Nat) : Bool :=
  bits % 2 ^ 63 == 0 || ((bits / 2 ^ 52) % 2 ^ 11 == 2047 && bits % 2 ^ 52 != 0)

/-- JavaScript truthiness: `!v` is `!v.truthy`, and `v || w` is `v` when
`v.truthy` and `w` otherwise. -/
def JsValue.truthy : JsValue → Bool
  | .undefined => false
  | .null => false
  | .bool b => b
  | .number bits => !zeroOrNaN bits
  | .string s => !s.data.isEmpty
  | .object _ => true

/-- A field that is absent or a string, as a value. -/
def JsValue.ofOption : Option String → JsValue
  | none => .undefined
  | some s => .string s

/-! ## Documents -/

/-- The two values of the `type` field of a media record. -/
inductive MediaType
  | image
  | video
  deriving DecidableEq, Repr

/-- A document of the `user` collection. -/
structure User where
  _id : ObjectId
  username : String
  email : String
  password : String
  deriving DecidableEq, Repr

/-- The object `newMedia` pushed into a gallery's `media` array. -/
structure Media where
  id : Nat
  title : String
  url : String
  type : MediaType
  ownerId : ObjectId
  isFavorite : Bool
  deriving DecidableEq, Repr

/-- A document of the `gallery` collection: `newGallery` plus the `_id`
that `insertOne` assigns. -/
structure Gallery where
  _id : ObjectId
  title : JsValue
  description : JsValue
  ownerId : ObjectId
  media : List Media
  createdAt : Nat
  deriving DecidableEq, Repr

/-- The database `Pixhub`: its two collections, in natural order. -/
structure Store where
  usersCollection : List User
  galleryCollection : List Gallery
  deriving DecidableEq, Repr

/-- What a handler reads from outside the store while it runs: the clock
(`Date.now()`, `new Date()`, in milliseconds) and the `_id` the driver
generates for a document given to `insertOne`. -/
structure Env where
  now : Nat
  genId : ObjectId
  deriving DecidableEq, Repr

/-- The unique index on `_id` of the gallery collection. -/
def Store.uniqueIds (s : Store) : Prop :=
  (s.galleryCollection.map Gallery._id).Nodup

instance (s : Store) : Decidable s.uniqueIds := by
  unfold Store.uniqueIds; infer_instance

/-! ## Requests and responses -/

/-- The three fields that `POST /api/gallery` reads from a parsed
`req.body`. -/
structure JsBody where
  title : JsValue
  description : JsValue
  ownerId : JsValue
  deriving DecidableEq, Repr

/-- A parsed body of `POST /api/gallery` in which each of the three fields is
absent (`none`) or a string. -/
structure GalleryBody where
  title : Option String
  description : Option String
  ownerId : Option String
  deriving DecidableEq, Repr

/-- The body `b`, as the handler receives it. -/
def GalleryBody.toJs (b : GalleryBody) : JsBody :=
  { title := .ofOption b.title
    description := .ofOption b.description
    ownerId := .ofOption b.ownerId }

/-- What `new ObjectId(ownerId)` does at its two calls in `POST /api/gallery`
when `ownerId` is not a string: the id it returns for the lookup (line 89)
and for the stored record (line 92), `none` when it throws. -/
structure Converted where
  lookup : Option ObjectId
  stored : Option ObjectId
  deriving DecidableEq, Repr

/-- The fields of `req.file` (set by the upload middleware) that the media
route reads. -/
structure UploadedFile where
  originalname : String
  filename : String
  mimetype : String
  deriving DecidableEq, Repr

/-- The JSON payloads the gallery routes send. -/
inductive Payload
  | error (msg : String)
  | gallery (g : Gallery)
  | galleries (gs : List Gallery)
  | success
  | media (m : Media)
  deriving DecidableEq, Repr

/-- A response: `res.status(status).json(body)`. -/
structure Response where
  status : Nat
  body : Payload
  deriving DecidableEq, Repr

/-! ## Collection operations -/

/-- The call `collection.findOne({ _id: id })` on the user collection. -/
def findUser (us : List User) (id : ObjectId) : Option User :=
  us.find? (fun u => u._id == id)

/-- The call `galleryCollection.insertOne(doc)`: the document is stored
under the generated `_id` at the end of the collection; a duplicate `_id`
is rejected by the unique index, and the call throws. -/
def insertOne (gs : List Gallery) (doc : Gallery) : Except Unit (List Gallery) :=
  if gs.any (fun g => g._id == doc._id) then .error () else .ok (gs ++ [doc])

/-- The call `galleryCollection.find({ ownerId: id }).toArray()`. -/
def find (gs : List Gallery) (id : ObjectId) : List Gallery :=
  gs.filter (fun g => g.ownerId == id)

/-- The call `galleryCollection.deleteOne({ _id: id })`: removes the first
matching document, if there is one. -/
def deleteOne : List Gallery → ObjectId → List Gallery
  | [], _ => []
  | g :: gs, id => if g._id == id then gs else g :: deleteOne gs id

/-- The call `galleryCollection.updateOne({ _id: id }, { $push: { media: m } })`:
appends `m` to the `media` array of the first matching document; when no
document matches, nothing is changed and nothing is thrown. -/
def updateOne : List Gallery → ObjectId → Media → List Gallery
  | [], _, _ => []
  | g :: gs, id, m =>
    if g._id == id then { g with media := g.media ++ [m] } :: gs
    else g :: updateOne gs id m

/-- The constructor call of the driver, throwing on a malformed string. -/
def newObjectId (s : String) : Except Unit ObjectId :=
  match ObjectId.parse s with
  | some id => .ok id
  | none => .error ()

/-! ## Route handlers -/

/-- The call `new ObjectId(v)` on a field of the body: on a string it is
`newObjectId`; on any other value it does what `other` says. -/
def objectIdOf (other : Option ObjectId) : JsValue → Except Unit ObjectId
  | .string s => newObjectId s
  | _ =>
    match other with
    | some id => .ok id
    | none => .error ()

/-- The object literal `newGallery` of `POST /api/gallery`, with the `_id`
that `insertOne` adds to it; `description || ""` is the description when it
is truthy, and the empty string otherwise. -/
def newGallery (env : Env) (title description : JsValue) (ownerId : ObjectId) : Gallery :=
  { _id := env.genId
    title := title
    description := if description.truthy then description else .string ""
    ownerId := ownerId
    media := []
    createdAt := env.now }

/-- The body of the `try` block of `POST /api/gallery`; `body` is `req.body`,
`none` when it is undefined, on which the destructuring of line 86 throws. -/
def postGalleryTry (env : Env) (conv : Converted) (s : Store) (body : Option JsBody) :
    Except Unit (Response × Store) := do
  match body with
  | none => throw ()
  | some body =>
    if !body.title.truthy || !body.ownerId.truthy then
      return (⟨400, .error "Titre et ownerId requis"⟩, s)
    let ownerId ← objectIdOf conv.lookup body.ownerId
    match findUser s.usersCollection ownerId with
    | none => return (⟨404, .error "Utilisateur introuvable"⟩, s)
    | some _ =>
      let ownerId ← objectIdOf conv.stored body.ownerId
      let doc := newGallery env body.title body.description ownerId
      let gs ← insertOne s.galleryCollection doc
      return (⟨201, .gallery doc⟩, { s with galleryCollection := gs })

/-- Handler of `POST /api/gallery`, on any request. -/
def postGallery (env : Env) (conv : Converted) (s : Store) (body : Option JsBody) :
    Response × Store :=
  match postGalleryTry env conv s body with
  | .ok r => r
  | .error _ => (⟨500, .error "Erreur création galerie"⟩, s)

/-- Handler of `POST /api/gallery`, on a parsed body whose fields are absent
or strings; `new ObjectId` is then only called on a string. -/
def createGallery (env : Env) (s : Store) (body : GalleryBody) : Response × Store :=
  postGallery env ⟨none, none⟩ s (some body.toJs)

/-- The body of the `try` block of `GET /api/gallery/user/:ownerId`. -/
def listByOwnerTry (s : Store) (ownerId : String) : Except Unit Response := do
  let id ← newObjectId ownerId
  return ⟨200, .galleries (find s.galleryCollection id)⟩

/-- Handler of `GET /api/gallery/user/:ownerId`. -/
def listByOwner (s : Store) (ownerId : String) : Response :=
  match listByOwnerTry s ownerId with
  | .ok r => r
  | .error _ => ⟨500, .error "Erreur récupération galeries"⟩

/-- The body of the `try` block of `DELETE /api/gallery/:id`. -/
def deleteGalleryTry (s : Store) (id : String) : Except Unit (Response × Store) := do
  let oid ← newObjectId id
  return (⟨200, .success⟩, { s with galleryCollection := deleteOne s.galleryCollection oid })

/-- Handler of `DELETE /api/gallery/:id`. -/
def deleteGallery (s : Store) (id : String) : Response × Store :=
  match deleteGalleryTry s id with
  | .ok r => r
  | .error _ => (⟨500, .error "Erreur suppression galerie"⟩, s)

/-- The classification `file.mimetype.startsWith("image") ? "image" : "video"`. -/
def mediaType (mimetype : String) : MediaType :=
  if "image".data.isPrefixOf mimetype.data then .image else .video

/-- What the media route has done when it reaches its `await`: it has
either already answered, or it has handed one `$push` to the driver. -/
inductive Prepared
  | respond (r : Response)
  | push (galleryId : ObjectId) (newMedia : Media)
  deriving DecidableEq, Repr

/-- The object literal `newMedia` of the media route. -/
def newMedia (env : Env) (file : UploadedFile) (userId : ObjectId) : Media :=
  { id := env.now
    title := file.originalname
    url := "/uploads/" ++ file.filename
    type := mediaType file.mimetype
    ownerId := userId
    isFavorite := false }

/-- The synchronous part of the `try` block of
`POST /api/gallery/:galleryId/:userId/media`, up to the `await`: the check
of `req.file`, the construction of `newMedia` (which converts `userId`) and
the arguments of `updateOne` (which converts `galleryId`). -/
def ingestPrepare (env : Env) (galleryId userId : String)
    (file : Option UploadedFile) : Except Unit Prepared := do
  match file with
  | none => return .respond ⟨400, .error "Fichier manquant"⟩
  | some file =>
    let uid ← newObjectId userId
    let m := newMedia env file uid
    let gid ← newObjectId galleryId
    return .push gid m

/-- The body of the `try` block of `POST /api/gallery/:galleryId/:userId/media`. -/
def ingestTry (env : Env) (s : Store) (galleryId userId : String)
    (file : Option UploadedFile) : Except Unit (Response × Store) := do
  match ← ingestPrepare env galleryId userId file with
  | .respond r => return (r, s)
  | .push gid newMedia =>
    return (⟨201, .media newMedia⟩,
      { s with galleryCollection := updateOne s.galleryCollection gid newMedia })

/-- Handler of `POST /api/gallery/:galleryId/:userId/media`. -/
def ingest (env : Env) (s : Store) (galleryId userId : String)
    (file : Option UploadedFile) : Response × Store :=
  match ingestTry env s galleryId userId file with
  | .ok r => r
  | .error _ => (⟨500, .error "Erreur ajout média"⟩, s)

/-- Whether the string `ownerId` identifies a document of the user
collection. -/
def identifiesUser (s : Store) (ownerId : String) : Bool :=
  match ObjectId.parse ownerId with
  | some id => (findUser s.usersCollection id).isSome
  | none => false

/-! ## Sequences of calls -/

/-- One call of a route that changes the gallery collection, with what it
reads from its environment. -/
inductive Call
  | createGallery (env : Env) (body : GalleryBody)
  | ingest (env : Env) (galleryId userId : String) (file : Option UploadedFile)
  | deleteGallery (id : String)
  deriving DecidableEq, Repr

/-- The store after one call. -/
def Call.run (s : Store) : Call → Store
  | .createGallery env body => (Pixhub.createGallery env s body).2
  | .ingest env galleryId userId file => (Pixhub.ingest env s galleryId userId file).2
  | .deleteGallery id => (Pixhub.deleteGallery s id).2

/-- The store after a sequence of calls, served one after the other. -/
def runCalls (s : Store) (calls : List Call) : Store :=
  calls.foldl Call.run s

/-! ## Uploads served concurrently

The server runs one handler at a time, but a handler gives up control at its
`await`.  The media route reaches the store exactly once, through one
`updateOne` with `$push`, which the store applies to the document as one step.
A request therefore passes through three steps, and the steps of different
requests may be interleaved in any order:

* `start`: the handler runs from its first line to the `await`
  (`ingestPrepare`), reading the clock at that moment;
* `apply`: the store applies the `$push` the handler sent;
* `resume`: the handler continues after the `await` and answers.
-/

/-- One upload request. -/
structure Upload where
  galleryId : String
  userId : String
  file : Option UploadedFile
  deriving DecidableEq, Repr

/-- Where one request stands. -/
inductive Task
  | waiting (u : Upload)
  | issued (galleryId : ObjectId) (m : Media)
  | applied (m : Media)
  | finished (r : Response)
  deriving DecidableEq, Repr

/-- One step of one request; `i` is the position of the request. -/
inductive Event
  | start (i : Nat) (env : Env)
  | apply (i : Nat)
  | resume (i : Nat)
  deriving DecidableEq, Repr

/-- The store together with the requests in flight. -/
structure Server where
  store : Store
  tasks : List Task
  deriving DecidableEq, Repr

/-- The handler of the media route, from its first line to its `await`. -/
def startTask (env : Env) (u : Upload) : Task :=
  match ingestPrepare env u.galleryId u.userId u.file with
  | .ok (.respond r) => .finished r
  | .ok (.push gid m) => .issued gid m
  | .error _ => .finished ⟨500, .error "Erreur ajout média"⟩

/-- One step of the server; `none` when the step is not the next step of the
request it names. -/
def step (c : Server) : Event → Option Server
  | .start i env =>
    match c.tasks[i]? with
    | some (.waiting u) => some { c with tasks := c.tasks.set i (startTask env u) }
    | _ => none
  | .apply i =>
    match c.tasks[i]? with
    | some (.issued gid m) =>
      some { store := { c.store with
                        galleryCollection := updateOne c.store.galleryCollection gid m }
             tasks := c.tasks.set i (.applied m) }
    | _ => none
  | .resume i =>
    match c.tasks[i]? with
    | some (.applied m) => some { c with tasks := c.tasks.set i (.finished ⟨201, .media m⟩) }
    | _ => none

/-- The server after a sequence of steps. -/
def runEvents (c : Server) : List Event → Option Server
  | [] => some c
  | e :: es =>
    match step c e with
    | some c1 => runEvents c1 es
    | none => none

/-- The media record a request has had appended to its gallery, if any. -/
def Task.pushed : Task → Option Media
  | .applied m => some m
  | .finished ⟨_, .media m⟩ => some m
  | _ => none

/-- The media record `m` is the one the media route builds for upload `u`,
at some reading of the clock. -/
def Upload.builds (u : Upload) (m : Media) : Prop :=
  ∃ file uid, u.file = some file ∧ ObjectId.parse u.userId = some uid ∧
    m.title = file.originalname ∧ m.url = "/uploads/" ++ file.filename ∧
    m.type = mediaType file.mimetype ∧ m.ownerId = uid ∧ m.isFavorite = false

/-- The upload `u` addresses gallery `gid`, names its uploader by a
well-formed identifier and carries a file, so that its handler reaches the
`$push`. -/
def Upload.appendsTo (u : Upload) (gid : ObjectId) : Prop :=
  ObjectId.parse u.galleryId = some gid ∧ (∃ uid, ObjectId.parse u.userId = some uid) ∧
    ∃ file, u.file = some file

/-- The task `t` is a stage of the request `u` against gallery `gid`. -/
def Task.tracks (gid : ObjectId) (u : Upload) (t : Task) : Prop :=
  u.appendsTo gid ∧
    (t = .waiting u ∨
      ∃ m, u.builds m ∧ (t = .issued gid m ∨ t = .applied m ∨ t = .finished ⟨201, .media m⟩))

/-- What every interleaving keeps true while the requests `uploads` run
against the gallery `g` of the store `s`: the store differs from `s` only in
the media of `g`, extended by the records `ms` of the requests whose `$push`
has been applied, and every task is a stage of its request. -/
def Server.consistent (s : Store) (pre post : List Gallery) (g : Gallery)
    (uploads : List Upload) (c : Server) : Prop :=
  ∃ ms : List Media,
    c.store =
      { usersCollection := s.usersCollection
        galleryCollection := pre ++ { g with media := g.media ++ ms } :: post } ∧
    List.Perm ms (c.tasks.filterMap Task.pushed) ∧
    List.Forall₂ (Task.tracks g._id) uploads c.tasks

/-! ## Lemmas on the collection operations -/

theorem newObjectId_ok {s : String} {id : ObjectId} (h : ObjectId.parse s = some id) :
    newObjectId s = .ok id := by
  simp [newObjectId, h]

theorem newObjectId_error {s : String} (h : ObjectId.parse s = none) :
    newObjectId s = .error () := by
  simp [newObjectId, h]

theorem truthy_string (t : String) : (JsValue.string t).truthy = true ↔ t ≠ "" := by
  cases t with
  | mk l => cases l <;> simp [JsValue.truthy, String.ext_iff]

theorem truthy_string_of_ne {t : String} (h : t ≠ "") : (JsValue.string t).truthy = true :=
  (truthy_string t).2 h

theorem parse_ne_empty {s : String} {id : ObjectId} (h : ObjectId.parse s = some id) :
    s ≠ "" := by
  rintro rfl
  simp [ObjectId.parse] at h

theorem findUser_isSome {us : List User} {id : ObjectId}
    (h : ∃ u ∈ us, u._id = id) : ∃ u, findUser us id = some u := by
  obtain ⟨u, hu, rfl⟩ := h
  cases hf : findUser us u._id with
  | some v => exact ⟨v, rfl⟩
  | none =>
    simp only [findUser, List.find?_eq_none] at hf
    exact absurd (hf u hu) (by simp)

theorem insertOne_fresh {gs : List Gallery} {doc : Gallery}
    (h : ∀ g ∈ gs, g._id ≠ doc._id) : insertOne gs doc = .ok (gs ++ [doc]) := by
  have : gs.any (fun g => g._id == doc._id) = false := by
    simp only [List.any_eq_false, beq_iff_eq]
    exact h
  simp [insertOne, this]

/-! ## Creating a gallery -/

theorem postGallery_unparsed (env : Env) (conv : Converted) (s : Store) :
    postGallery env conv s none = (⟨500, .error "Erreur création galerie"⟩, s) := rfl

theorem postGallery_invalid (env : Env) (conv : Converted) (s : Store) (body : JsBody)
    (h : body.title.truthy = false ∨ body.ownerId.truthy = false) :
    postGallery env conv s (some body) = (⟨400, .error "Titre et ownerId requis"⟩, s) := by
  have h2 : (!body.title.truthy || !body.ownerId.truthy) = true := by
    rcases h with h | h <;> simp [h]
  simp only [postGallery, postGalleryTry, h2, if_true]
  rfl

theorem postGalleryTry_valid (env : Env) (conv : Converted) (s : Store) (body : JsBody)
    (ht : body.title.truthy = true) (ho : body.ownerId.truthy = true) :
    postGalleryTry env conv s (some body) =
      (objectIdOf conv.lookup body.ownerId >>= fun oid =>
        match findUser s.usersCollection oid with
        | none => pure (⟨404, .error "Utilisateur introuvable"⟩, s)
        | some _ =>
          objectIdOf conv.stored body.ownerId >>= fun oid2 =>
            insertOne s.galleryCollection
                (newGallery env body.title body.description oid2) >>= fun gs =>
              pure (⟨201, .gallery (newGallery env body.title body.description oid2)⟩,
                { s with galleryCollection := gs })) := by
  simp only [postGalleryTry, ht, ho, Bool.not_true, Bool.or_self, Bool.false_eq_true, if_false]
  rfl

theorem createGallery_invalid (env : Env) (s : Store) (title ownerId description : Option String)
    (h : title = none ∨ title = some "" ∨ ownerId = none ∨ ownerId = some "") :
    createGallery env s ⟨title, description, ownerId⟩ =
      (⟨400, .error "Titre et ownerId requis"⟩, s) := by
  refine postGallery_invalid env _ s _ ?_
  rcases h with h | h | h | h <;> subst h
  · exact Or.inl rfl
  · exact Or.inl rfl
  · exact Or.inr rfl
  · exact Or.inr rfl

/-- On a body whose fields are absent or strings the handler never calls
`new ObjectId` on anything but a string, so what the constructor does on
other values plays no part. -/
theorem postGallery_toJs (env : Env) (conv : Converted) (s : Store) (body : GalleryBody) :
    postGallery env conv s (some body.toJs) = createGallery env s body := by
  obtain ⟨t, d, o⟩ := body
  cases o with
  | none =>
    have h : ∀ c : Converted, postGallery env c s (some (GalleryBody.toJs ⟨t, d, none⟩)) =
        (⟨400, .error "Titre et ownerId requis"⟩, s) :=
      fun c => postGallery_invalid env c s (GalleryBody.toJs ⟨t, d, none⟩) (Or.inr rfl)
    rw [createGallery, h conv, h ⟨none, none⟩]
  | some o =>
    simp only [createGallery, postGallery, postGalleryTry, GalleryBody.toJs,
      JsValue.ofOption, objectIdOf]

theorem createGalleryTry_valid (env : Env) (s : Store) (title ownerId : String)
    (description : Option String) (ht : title ≠ "") (ho : ownerId ≠ "") :
    postGalleryTry env ⟨none, none⟩ s
        (some (GalleryBody.toJs ⟨some title, description, some ownerId⟩)) =
      (newObjectId ownerId >>= fun oid =>
        match findUser s.usersCollection oid with
        | none => pure (⟨404, .error "Utilisateur introuvable"⟩, s)
        | some _ =>
          newObjectId ownerId >>= fun oid2 =>
            insertOne s.galleryCollection
                (newGallery env (.string title) (.ofOption description) oid2) >>= fun gs =>
              pure (⟨201, .gallery (newGallery env (.string title) (.ofOption description) oid2)⟩,
                { s with galleryCollection := gs })) :=
  postGalleryTry_valid env ⟨none, none⟩ s _ (truthy_string_of_ne ht) (truthy_string_of_ne ho)

theorem createGallery_ok (env : Env) (s : Store) (title ownerId : String)
    (description : Option String) (oid : ObjectId)
    (htitle : title ≠ "")
    (hid : ObjectId.parse ownerId = some oid)
    (huser : ∃ u ∈ s.usersCollection, u._id = oid)
    (hfresh : ∀ g ∈ s.galleryCollection, g._id ≠ env.genId) :
    createGallery env s ⟨some title, description, some ownerId⟩ =
      (⟨201, .gallery (newGallery env (.string title) (.ofOption description) oid)⟩,
        { usersCollection := s.usersCollection
          galleryCollection := s.galleryCollection ++
            [newGallery env (.string title) (.ofOption description) oid] }) := by
  obtain ⟨u, hu⟩ := findUser_isSome huser
  have hins : insertOne s.galleryCollection
        (newGallery env (.string title) (.ofOption description) oid) =
      .ok (s.galleryCollection ++ [newGallery env (.string title) (.ofOption description) oid]) :=
    insertOne_fresh hfresh
  rw [createGallery, postGallery, createGalleryTry_valid env s title ownerId description htitle
    (parse_ne_empty hid), newObjectId_ok hid]
  simp only [bind, Except.bind, hu, hins, pure, Except.pure]

theorem newGallery_description (env : Env) (title : JsValue) (description : Option String)
    (oid : ObjectId) :
    (newGallery env title (.ofOption description) oid).description =
      .string (match description with
        | some d => d
        | none => "") := by
  cases description with
  | none => rfl
  | some d =>
    by_cases hd : d = ""
    · subst hd; rfl
    · simp [newGallery, JsValue.ofOption, truthy_string_of_ne hd]

/-- C1. For every store, every non-empty title, every description (possibly
absent) and every `ownerId` that identifies an existing user, `createGallery`
answers 201 with a gallery record whose `media` is empty, whose `ownerId` is
the given one, whose title is the given title and whose description is the
given description, or the empty string when there is none; the gallery
collection afterwards is the previous collection followed by exactly that
record, and the user collection is unchanged.  The `_id` the driver
generates is taken to be unused, as the driver guarantees. -/
theorem createGallery_existing_owner (env : Env) (s : Store) (title ownerId : String)
    (description : Option String) (oid : ObjectId)
    (htitle : title ≠ "")
    (hid : ObjectId.parse ownerId = some oid)
    (huser : ∃ u ∈ s.usersCollection, u._id = oid)
    (hfresh : ∀ g ∈ s.galleryCollection, g._id ≠ env.genId) :
    ∃ g : Gallery,
      createGallery env s ⟨some title, description, some ownerId⟩ =
        (⟨201, .gallery g⟩,
          { usersCollection := s.usersCollection
            galleryCollection := s.galleryCollection ++ [g] }) ∧
      g.media = [] ∧ g.ownerId = oid ∧ g.title = .string title ∧
      g.description = .string (match description with
        | some d => d
        | none => "") ∧
      g._id = env.genId ∧ g.createdAt = env.now := by
  exact ⟨newGallery env (.string title) (.ofOption description) oid,
    createGallery_ok env s title ownerId description oid htitle hid huser hfresh,
    rfl, rfl, rfl, newGallery_description env _ description oid, rfl, rfl⟩

theorem createGallery_existing_owner_witness :
    ∃ g : Gallery,
      createGallery ⟨1700000000000, 7⟩ ⟨[⟨161, "ana", "ana@x.org", "pw"⟩], []⟩
          ⟨some "Trip", none, some "0000000000000000000000a1"⟩ =
        (⟨201, .gallery g⟩,
          { usersCollection := [⟨161, "ana", "ana@x.org", "pw"⟩]
            galleryCollection := [] ++ [g] }) ∧
      g.media = [] ∧ g.ownerId = 161 ∧ g.title = .string "Trip" ∧
      g.description = .string "" ∧ g._id = 7 ∧ g.createdAt = 1700000000000 :=
  createGallery_existing_owner ⟨1700000000000, 7⟩ ⟨[⟨161, "ana", "ana@x.org", "pw"⟩], []⟩
    "Trip" "0000000000000000000000a1" none 161 (by decide) (by decide)
    ⟨⟨161, "ana", "ana@x.org", "pw"⟩, by simp, rfl⟩ (by simp)

theorem createGallery_throws (env : Env) (s : Store) (title ownerId : String)
    (description : Option String) (ht : title ≠ "") (ho : ownerId ≠ "")
    (hid : ObjectId.parse ownerId = none) :
    createGallery env s ⟨some title, description, some ownerId⟩ =
      (⟨500, .error "Erreur création galerie"⟩, s) := by
  rw [createGallery, postGallery, createGalleryTry_valid env s title ownerId description ht ho,
    newObjectId_error hid]
  rfl

theorem createGallery_404 (env : Env) (s : Store) (title ownerId : String)
    (description : Option String) (oid : ObjectId) (ht : title ≠ "")
    (hid : ObjectId.parse ownerId = some oid)
    (hu : findUser s.usersCollection oid = none) :
    createGallery env s ⟨some title, description, some ownerId⟩ =
      (⟨404, .error "Utilisateur introuvable"⟩, s) := by
  rw [createGallery, postGallery, createGalleryTry_valid env s title ownerId description ht
    (parse_ne_empty hid), newObjectId_ok hid]
  simp only [bind, Except.bind, hu, pure, Except.pure]

/-- C2, as amended. For every store, every non-empty title and every
`ownerId` that does not identify an existing user, `createGallery` persists
nothing (the store afterwards is the store before); the response is 404 when
`ownerId` is a well-formed identifier, 500 when it is a non-empty string that
is not a well-formed identifier, and 400 when it is the empty string. -/
theorem createGallery_unknown_owner (env : Env) (s : Store) (title ownerId : String)
    (description : Option String) (htitle : title ≠ "")
    (hno : identifiesUser s ownerId = false) :
    (createGallery env s ⟨some title, description, some ownerId⟩).2 = s ∧
    (∀ oid, ObjectId.parse ownerId = some oid →
      (createGallery env s ⟨some title, description, some ownerId⟩).1 =
        ⟨404, .error "Utilisateur introuvable"⟩) ∧
    (ObjectId.parse ownerId = none → ownerId ≠ "" →
      (createGallery env s ⟨some title, description, some ownerId⟩).1 =
        ⟨500, .error "Erreur création galerie"⟩) ∧
    (ownerId = "" →
      (createGallery env s ⟨some title, description, some ownerId⟩).1 =
        ⟨400, .error "Titre et ownerId requis"⟩) := by
  have h404 : ∀ oid, ObjectId.parse ownerId = some oid →
      createGallery env s ⟨some title, description, some ownerId⟩ =
        (⟨404, .error "Utilisateur introuvable"⟩, s) := by
    intro oid hid
    have hu : findUser s.usersCollection oid = none := by
      simpa [identifiesUser, hid] using hno
    exact createGallery_404 env s title ownerId description oid htitle hid hu
  have h400 : ownerId = "" →
      createGallery env s ⟨some title, description, some ownerId⟩ =
        (⟨400, .error "Titre et ownerId requis"⟩, s) := by
    intro ho
    exact createGallery_invalid env s _ _ _ (Or.inr (Or.inr (Or.inr (by rw [ho]))))
  refine ⟨?_, fun oid hid => by rw [h404 oid hid], fun hid ho => ?_, fun ho => by rw [h400 ho]⟩
  · by_cases ho : ownerId = ""
    · rw [h400 ho]
    · cases hid : ObjectId.parse ownerId with
      | none => rw [createGallery_throws env s title ownerId description htitle ho hid]
      | some oid => rw [h404 oid hid]
  · rw [createGallery_throws env s title ownerId description htitle ho hid]

theorem createGallery_unknown_owner_witness :
    (createGallery ⟨1700000000000, 7⟩ ⟨[⟨161, "ana", "ana@x.org", "pw"⟩], []⟩
        ⟨some "Trip", none, some "0000000000000000000000b2"⟩).1 =
      ⟨404, .error "Utilisateur introuvable"⟩ :=
  (createGallery_unknown_owner ⟨1700000000000, 7⟩ ⟨[⟨161, "ana", "ana@x.org", "pw"⟩], []⟩
    "Trip" "0000000000000000000000b2" none (by decide) (by decide)).2.1 178 (by decide)

/-- C2, counterexample. The string "abc" identifies no user of the store,
the title is not empty, and `createGallery` answers 500, not 404. -/
theorem createGallery_malformed_owner_not_404 :
    identifiesUser ⟨[⟨161, "ana", "ana@x.org", "pw"⟩], []⟩ "abc" = false ∧
    "Trip" ≠ "" ∧
    createGallery ⟨1700000000000, 7⟩ ⟨[⟨161, "ana", "ana@x.org", "pw"⟩], []⟩
        ⟨some "Trip", none, some "abc"⟩ =
      (⟨500, .error "Erreur création galerie"⟩, ⟨[⟨161, "ana", "ana@x.org", "pw"⟩], []⟩) ∧
    (createGallery ⟨1700000000000, 7⟩ ⟨[⟨161, "ana", "ana@x.org", "pw"⟩], []⟩
        ⟨some "Trip", none, some "abc"⟩).1.status ≠ 404 := by
  decide

theorem newObjectId_ok_iff (o : String) (oid : ObjectId) :
    newObjectId o = .ok oid ↔ ObjectId.parse o = some oid := by
  unfold newObjectId
  cases ObjectId.parse o <;> simp

theorem newObjectId_error_iff (o : String) (e : Unit) :
    newObjectId o = .error e ↔ ObjectId.parse o = none := by
  unfold newObjectId
  cases ObjectId.parse o <;> simp

/-- The values that JavaScript takes for false: an absent field, `null`,
`false`, the numbers `0`, `-0` and `NaN`, and the empty string. -/
theorem truthy_eq_false_iff (v : JsValue) :
    v.truthy = false ↔
      v = .undefined ∨ v = .null ∨ v = .bool false ∨
        (∃ bits, v = .number bits ∧ zeroOrNaN bits = true) ∨ v = .string "" := by
  cases v with
  | undefined => simp [JsValue.truthy]
  | null => simp [JsValue.truthy]
  | bool b => simp [JsValue.truthy]
  | number bits => simp [JsValue.truthy]
  | string t =>
    have h := truthy_string t
    constructor
    · intro hf
      have : t = "" := by
        by_contra hne
        rw [h.2 hne] at hf
        cases hf
      simp [this]
    · intro hv
      rcases hv with hv | hv | hv | ⟨bits, hv, _⟩ | hv
      · cases hv
      · cases hv
      · cases hv
      · cases hv
      · cases hv
        rfl
  | object j => simp [JsValue.truthy]

/-- C9, as amended. A request whose body was not parsed (`req.body` is
undefined) is answered 500.  A request with a parsed body in which `title` or
`ownerId` is missing or falsy (absent, `null`, `false`, `0`, or the empty
string) is answered 400 whether or not the owner exists, and the store is
unchanged.  When both are truthy the answer is never 400: its status is one of
201, 404 and 500, and every answer other than 201 leaves the store unchanged;
when moreover `ownerId` is a string, the answer is 404 exactly when `ownerId`
is a well-formed identifier of no existing user, and it is 500 when `ownerId`
is not a well-formed identifier. -/
theorem createGallery_validation (env : Env) (conv : Converted) (s : Store) :
    postGallery env conv s none = (⟨500, .error "Erreur création galerie"⟩, s) ∧
    ∀ body : JsBody,
      ((body.title.truthy = false ∨ body.ownerId.truthy = false) →
        postGallery env conv s (some body) = (⟨400, .error "Titre et ownerId requis"⟩, s)) ∧
      (body.title.truthy = true → body.ownerId.truthy = true →
        (postGallery env conv s (some body)).1.status ≠ 400 ∧
        ((postGallery env conv s (some body)).1.status = 201 ∨
          (postGallery env conv s (some body)).1.status = 404 ∨
          (postGallery env conv s (some body)).1.status = 500) ∧
        ((postGallery env conv s (some body)).1.status ≠ 201 →
          (postGallery env conv s (some body)).2 = s) ∧
        ∀ ownerId : String, body.ownerId = .string ownerId →
          ((postGallery env conv s (some body)).1.status = 404 ↔
            ∃ oid, ObjectId.parse ownerId = some oid ∧
              findUser s.usersCollection oid = none) ∧
          (ObjectId.parse ownerId = none →
            (postGallery env conv s (some body)).1.status = 500)) := by
  refine ⟨rfl, fun body => ⟨postGallery_invalid env conv s body, ?_⟩⟩
  intro ht ho
  have hval := postGalleryTry_valid env conv s body ht ho
  unfold postGallery
  rw [hval]
  cases h1 : objectIdOf conv.lookup body.ownerId with
  | error e =>
    simp only [bind, Except.bind]
    refine ⟨by decide, by decide, fun _ => trivial, ?_⟩
    intro ownerId hown
    rw [hown] at h1
    have hp : ObjectId.parse ownerId = none := (newObjectId_error_iff ownerId e).1 h1
    simp [hp]
  | ok oid =>
    simp only [bind, Except.bind]
    cases h2 : findUser s.usersCollection oid with
    | none =>
      simp only [pure, Except.pure]
      refine ⟨by decide, by decide, fun _ => trivial, ?_⟩
      intro ownerId hown
      rw [hown] at h1
      have hp : ObjectId.parse ownerId = some oid := (newObjectId_ok_iff ownerId oid).1 h1
      simp [hp, h2]
    | some u =>
      simp only []
      have hnot : ∀ ownerId : String, body.ownerId = .string ownerId →
          ObjectId.parse ownerId = some oid := by
        intro ownerId hown
        rw [hown] at h1
        exact (newObjectId_ok_iff ownerId oid).1 h1
      cases h3 : objectIdOf conv.stored body.ownerId with
      | error e =>
        simp only []
        refine ⟨by decide, by decide, fun _ => trivial, ?_⟩
        intro ownerId hown
        simp [hnot ownerId hown, h2]
      | ok oid2 =>
        simp only []
        cases h4 : insertOne s.galleryCollection
            (newGallery env body.title body.description oid2) with
        | error e =>
          simp only []
          refine ⟨by decide, by decide, fun _ => trivial, ?_⟩
          intro ownerId hown
          simp [hnot ownerId hown, h2]
        | ok gs =>
          simp only [pure, Except.pure]
          refine ⟨by decide, by decide, fun h => absurd rfl h, ?_⟩
          intro ownerId hown
          simp [hnot ownerId hown, h2]

/-- C9, counterexample. With a non-empty title and an `ownerId` that is
present, the request is answered 400 when `ownerId` is the empty string or the
number 0, and 500 (neither 404 nor 400) when `ownerId` is the string "abc";
and a request whose body was not parsed, in which the title is missing, is
answered 500, not 400. -/
theorem createGallery_present_owner_not_404 :
    postGallery ⟨1700000000000, 7⟩ ⟨none, none⟩ ⟨[⟨161, "ana", "ana@x.org", "pw"⟩], []⟩
        (some ⟨.string "Trip", .string "d", .string ""⟩) =
      (⟨400, .error "Titre et ownerId requis"⟩, ⟨[⟨161, "ana", "ana@x.org", "pw"⟩], []⟩) ∧
    postGallery ⟨1700000000000, 7⟩ ⟨some 5, some 6⟩ ⟨[⟨161, "ana", "ana@x.org", "pw"⟩], []⟩
        (some ⟨.string "Trip", .string "d", .number 0⟩) =
      (⟨400, .error "Titre et ownerId requis"⟩, ⟨[⟨161, "ana", "ana@x.org", "pw"⟩], []⟩) ∧
    postGallery ⟨1700000000000, 7⟩ ⟨none, none⟩ ⟨[⟨161, "ana", "ana@x.org", "pw"⟩], []⟩
        (some ⟨.string "Trip", .string "d", .string "abc"⟩) =
      (⟨500, .error "Erreur création galerie"⟩, ⟨[⟨161, "ana", "ana@x.org", "pw"⟩], []⟩) ∧
    postGallery ⟨1700000000000, 7⟩ ⟨none, none⟩ ⟨[⟨161, "ana", "ana@x.org", "pw"⟩], []⟩
        none =
      (⟨500, .error "Erreur création galerie"⟩, ⟨[⟨161, "ana", "ana@x.org", "pw"⟩], []⟩) := by
  decide

/-! ## Adding a media record -/

theorem updateOne_split (pre post : List Gallery) (g : Gallery) (gid : ObjectId) (m : Media)
    (hg : g._id = gid) (hpre : ∀ x ∈ pre, x._id ≠ gid) :
    updateOne (pre ++ g :: post) gid m =
      pre ++ { g with media := g.media ++ [m] } :: post := by
  induction pre with
  | nil => simp [updateOne, hg]
  | cons x xs ih =>
    have hx : x._id ≠ gid := hpre x (by simp)
    have hxs : ∀ y ∈ xs, y._id ≠ gid := fun y hy => hpre y (by simp [hy])
    simp [updateOne, hx, ih hxs]

theorem updateOne_absent (gs : List Gallery) (gid : ObjectId) (m : Media)
    (h : ∀ g ∈ gs, g._id ≠ gid) : updateOne gs gid m = gs := by
  induction gs with
  | nil => rfl
  | cons x xs ih =>
    have hx : x._id ≠ gid := h x (by simp)
    have hxs : ∀ y ∈ xs, y._id ≠ gid := fun y hy => h y (by simp [hy])
    simp [updateOne, hx, ih hxs]

theorem exists_first_split (gs : List Gallery) (gid : ObjectId)
    (h : ∃ g ∈ gs, g._id = gid) :
    ∃ pre g post, gs = pre ++ g :: post ∧ g._id = gid ∧ ∀ x ∈ pre, x._id ≠ gid := by
  induction gs with
  | nil => simp at h
  | cons x xs ih =>
    by_cases hx : x._id = gid
    · exact ⟨[], x, xs, rfl, hx, by simp⟩
    · have h2 : ∃ g ∈ xs, g._id = gid := by
        obtain ⟨g, hg, hgid⟩ := h
        rcases List.mem_cons.1 hg with rfl | hg
        · exact absurd hgid hx
        · exact ⟨g, hg, hgid⟩
      obtain ⟨pre, g, post, hsplit, hg, hpre⟩ := ih h2
      refine ⟨x :: pre, g, post, by simp [hsplit], hg, ?_⟩
      intro y hy
      rcases List.mem_cons.1 hy with rfl | hy
      · exact hx
      · exact hpre y hy

theorem ingest_push (env : Env) (s : Store) (galleryId userId : String) (file : UploadedFile)
    (gid uid : ObjectId) (hg : ObjectId.parse galleryId = some gid)
    (hu : ObjectId.parse userId = some uid) :
    ingest env s galleryId userId (some file) =
      (⟨201, .media (newMedia env file uid)⟩,
        { s with galleryCollection :=
            updateOne s.galleryCollection gid (newMedia env file uid) }) := by
  simp only [ingest, ingestTry, ingestPrepare, newObjectId_ok hg, newObjectId_ok hu, bind,
    Except.bind, pure, Except.pure]

theorem ingest_throws (env : Env) (s : Store) (galleryId userId : String)
    (file : UploadedFile)
    (h : ObjectId.parse galleryId = none ∨ ObjectId.parse userId = none) :
    ingest env s galleryId userId (some file) = (⟨500, .error "Erreur ajout média"⟩, s) := by
  cases hu : ObjectId.parse userId with
  | none =>
    simp only [ingest, ingestTry, ingestPrepare, newObjectId_error hu, bind, Except.bind]
  | some uid =>
    have hg : ObjectId.parse galleryId = none := by
      rcases h with h | h
      · exact h
      · rw [hu] at h; cases h
    simp only [ingest, ingestTry, ingestPrepare, newObjectId_ok hu, newObjectId_error hg, bind,
      Except.bind]

/-- C3, as amended. For every store that contains a gallery with identifier
`galleryId`, every `userId` that is a well-formed identifier and every
supplied file, `ingest` answers 201 with a media record whose title is the
original file name, whose url is the address of the stored file, whose type is
the classification of the declared content type, whose `ownerId` is the
uploader and whose `isFavorite` is false; afterwards that gallery (the one
document with this identifier that the store resolves) has its previous media
sequence followed by exactly this record, its other fields are unchanged, and
every other gallery and the user collection are unchanged. -/
theorem ingest_existing_gallery (env : Env) (s : Store) (galleryId userId : String)
    (file : UploadedFile) (gid uid : ObjectId)
    (hgid : ObjectId.parse galleryId = some gid)
    (huid : ObjectId.parse userId = some uid)
    (hex : ∃ g ∈ s.galleryCollection, g._id = gid) :
    ∃ (m : Media) (pre post : List Gallery) (g : Gallery),
      m.id = env.now ∧ m.title = file.originalname ∧ m.url = "/uploads/" ++ file.filename ∧
      m.type = mediaType file.mimetype ∧ m.ownerId = uid ∧ m.isFavorite = false ∧
      s.galleryCollection = pre ++ g :: post ∧ g._id = gid ∧ (∀ x ∈ pre, x._id ≠ gid) ∧
      ingest env s galleryId userId (some file) =
        (⟨201, .media m⟩,
          { usersCollection := s.usersCollection
            galleryCollection :=
              pre ++ { _id := g._id, title := g.title, description := g.description,
                       ownerId := g.ownerId, media := g.media ++ [m],
                       createdAt := g.createdAt } :: post }) := by
  obtain ⟨pre, g, post, hsplit, hg, hpre⟩ := exists_first_split s.galleryCollection gid hex
  refine ⟨newMedia env file uid, pre, post, g, rfl, rfl, rfl, rfl, rfl, rfl, hsplit, hg, hpre, ?_⟩
  rw [ingest_push env s galleryId userId file gid uid hgid huid, hsplit,
    updateOne_split pre post g gid _ hg hpre]

theorem ingest_existing_gallery_witness :
    ∃ (m : Media) (pre post : List Gallery) (g : Gallery),
      m.id = 1700000000500 ∧ m.title = "cat.png" ∧ m.url = "/uploads/" ++ "1700000000400-77.png" ∧
      m.type = mediaType "image/png" ∧ m.ownerId = 161 ∧ m.isFavorite = false ∧
      [(⟨7, .string "Trip", .string "", 161, [], 1700000000000⟩ : Gallery)] = pre ++ g :: post ∧ g._id = 7 ∧
      (∀ x ∈ pre, x._id ≠ 7) ∧
      ingest ⟨1700000000500, 8⟩ ⟨[], [⟨7, .string "Trip", .string "", 161, [], 1700000000000⟩]⟩
          "000000000000000000000007" "0000000000000000000000a1"
          (some ⟨"cat.png", "1700000000400-77.png", "image/png"⟩) =
        (⟨201, .media m⟩,
          { usersCollection := []
            galleryCollection :=
              pre ++ { _id := g._id, title := g.title, description := g.description,
                       ownerId := g.ownerId, media := g.media ++ [m],
                       createdAt := g.createdAt } :: post }) :=
  ingest_existing_gallery ⟨1700000000500, 8⟩ ⟨[], [⟨7, .string "Trip", .string "", 161, [], 1700000000000⟩]⟩
    "000000000000000000000007" "0000000000000000000000a1"
    ⟨"cat.png", "1700000000400-77.png", "image/png"⟩ 7 161 (by decide) (by decide)
    ⟨⟨7, .string "Trip", .string "", 161, [], 1700000000000⟩, by simp, rfl⟩

/-- C3, counterexample. The store contains the gallery addressed by the
request and a file is supplied, but `userId` is the string "bob": `ingest`
answers 500 and the gallery receives no media record. -/
theorem ingest_malformed_uploader_not_201 :
    ObjectId.parse "000000000000000000000007" = some 7 ∧
    ingest ⟨1700000000500, 8⟩ ⟨[], [⟨7, .string "Trip", .string "", 161, [], 1700000000000⟩]⟩
        "000000000000000000000007" "bob"
        (some ⟨"cat.png", "1700000000400-77.png", "image/png"⟩) =
      (⟨500, .error "Erreur ajout média"⟩, ⟨[], [⟨7, .string "Trip", .string "", 161, [], 1700000000000⟩]⟩) := by
  decide

/-- C4, the code at the failing input. No gallery exists in the store, both
identifiers are well formed and a file is supplied: `ingest` answers 201 with
a media record, and the store is left as it was, so the record is stored
nowhere. -/
theorem ingest_missing_gallery_reports_created :
    ingest ⟨1700000000500, 8⟩ ⟨[⟨161, "ana", "ana@x.org", "pw"⟩], []⟩
        "000000000000000000000007" "0000000000000000000000a1"
        (some ⟨"cat.png", "1700000000400-77.png", "image/png"⟩) =
      (⟨201, .media ⟨1700000000500, "cat.png", "/uploads/1700000000400-77.png", .image, 161,
          false⟩⟩,
        ⟨[⟨161, "ana", "ana@x.org", "pw"⟩], []⟩) := by
  decide

/-- For every store and every well-formed `galleryId` that names no stored
gallery, `ingest` with a supplied file answers 201 and leaves the store
unchanged. -/
theorem ingest_no_match (env : Env) (s : Store) (galleryId userId : String)
    (file : UploadedFile) (gid uid : ObjectId)
    (hgid : ObjectId.parse galleryId = some gid)
    (huid : ObjectId.parse userId = some uid)
    (hno : ∀ g ∈ s.galleryCollection, g._id ≠ gid) :
    ingest env s galleryId userId (some file) = (⟨201, .media (newMedia env file uid)⟩, s) := by
  rw [ingest_push env s galleryId userId file gid uid hgid huid,
    updateOne_absent s.galleryCollection gid _ hno]

/-! ## Classification of the content type -/

/-- C7, as amended. The classification maps `image/png` to `image` and
`video/mp4` to `video`, and for every declared content type it yields `video`
exactly when the content type does not begin with the five characters
`image`. -/
theorem mediaType_spec :
    mediaType "image/png" = .image ∧ mediaType "video/mp4" = .video ∧
    ∀ ct : String, mediaType ct = .video ↔ ¬ ∃ rest : String, ct = "image" ++ rest := by
  refine ⟨by decide, by decide, ?_⟩
  intro ct
  have key : "image".data.isPrefixOf ct.data = true ↔ ∃ rest : String, ct = "image" ++ rest := by
    rw [List.isPrefixOf_iff_prefix]
    constructor
    · rintro ⟨t, ht⟩
      exact ⟨⟨t⟩, String.ext (by simp [← ht])⟩
    · rintro ⟨rest, rfl⟩
      exact ⟨rest.data, by simp⟩
  unfold mediaType
  by_cases h : "image".data.isPrefixOf ct.data = true
  · simp [h, key.1 h]
  · have h2 : ¬ ∃ rest : String, ct = "image" ++ rest := fun hh => h (key.2 hh)
    simp [h, h2]

/-- C7, counterexample. The content type `imagex/raw` is not of the form
`image/*`, and it is classified as `image`. -/
theorem mediaType_imagex_is_image :
    "image/".data.isPrefixOf "imagex/raw".data = false ∧ mediaType "imagex/raw" = .image := by
  decide

/-! ## Deleting a gallery -/

theorem filter_ne_of_absent (gs : List Gallery) (oid : ObjectId)
    (h : ∀ g ∈ gs, g._id ≠ oid) : gs.filter (fun g => decide (g._id ≠ oid)) = gs := by
  rw [List.filter_eq_self]
  intro g hg
  simpa using h g hg

theorem deleteOne_eq_filter (gs : List Gallery) (oid : ObjectId)
    (h : (gs.map Gallery._id).Nodup) :
    deleteOne gs oid = gs.filter (fun g => decide (g._id ≠ oid)) := by
  induction gs with
  | nil => rfl
  | cons x xs ih =>
    rw [List.map_cons, List.nodup_cons] at h
    by_cases hx : x._id = oid
    · subst hx
      have hxs : ∀ g ∈ xs, g._id ≠ x._id := by
        intro g hg hgo
        exact h.1 (List.mem_map.2 ⟨g, hg, hgo⟩)
      have hf := filter_ne_of_absent xs x._id hxs
      simpa [deleteOne, List.filter_cons] using hf.symm
    · simp [deleteOne, hx, List.filter_cons, ih h.2]

theorem deleteOne_split (pre post : List Gallery) (g : Gallery) (gid : ObjectId)
    (hg : g._id = gid) (hpre : ∀ x ∈ pre, x._id ≠ gid) :
    deleteOne (pre ++ g :: post) gid = pre ++ post := by
  induction pre with
  | nil => simp [deleteOne, hg]
  | cons x xs ih =>
    have hx : x._id ≠ gid := hpre x (by simp)
    have hxs : ∀ y ∈ xs, y._id ≠ gid := fun y hy => hpre y (by simp [hy])
    simp [deleteOne, hx, ih hxs]

theorem deleteGallery_ok (s : Store) (id : String) (oid : ObjectId)
    (hid : ObjectId.parse id = some oid) :
    deleteGallery s id =
      (⟨200, .success⟩, { s with galleryCollection := deleteOne s.galleryCollection oid }) := by
  simp only [deleteGallery, deleteGalleryTry, newObjectId_ok hid, bind, Except.bind, pure,
    Except.pure]

theorem deleteGallery_throws (s : Store) (id : String) (hid : ObjectId.parse id = none) :
    deleteGallery s id = (⟨500, .error "Erreur suppression galerie"⟩, s) := by
  simp only [deleteGallery, deleteGalleryTry, newObjectId_error hid, bind, Except.bind]

/-- C8, as amended. For every store (whose gallery ids are distinct, as the
index on `_id` guarantees) and every `galleryId` that is a well-formed
identifier, whether or not a gallery with that id exists, `deleteGallery`
reports success; a second call on the same id reports success again and
leaves the store as the first call left it; in that store no gallery with
that id remains, the other galleries are the previous ones in their previous
order, and the users are unchanged.  For a `galleryId` that is not a
well-formed identifier `deleteGallery` answers 500 and changes nothing. -/
theorem deleteGallery_idempotent (s : Store) (id : String) (hu : s.uniqueIds) :
    (∀ oid, ObjectId.parse id = some oid →
      ∃ s1 : Store,
        deleteGallery s id = (⟨200, .success⟩, s1) ∧
        deleteGallery s1 id = (⟨200, .success⟩, s1) ∧
        (∀ g ∈ s1.galleryCollection, g._id ≠ oid) ∧
        s1.galleryCollection = s.galleryCollection.filter (fun g => decide (g._id ≠ oid)) ∧
        s1.usersCollection = s.usersCollection) ∧
    (ObjectId.parse id = none →
      deleteGallery s id = (⟨500, .error "Erreur suppression galerie"⟩, s)) := by
  refine ⟨?_, deleteGallery_throws s id⟩
  intro oid hid
  have hno : ∀ g ∈ deleteOne s.galleryCollection oid, g._id ≠ oid := by
    intro g hg
    rw [deleteOne_eq_filter s.galleryCollection oid hu] at hg
    simpa using (List.mem_filter.1 hg).2
  refine ⟨{ s with galleryCollection := deleteOne s.galleryCollection oid },
    deleteGallery_ok s id oid hid, ?_, hno, deleteOne_eq_filter s.galleryCollection oid hu, rfl⟩
  rw [deleteGallery_ok _ id oid hid]
  have hfix : deleteOne (deleteOne s.galleryCollection oid) oid =
      deleteOne s.galleryCollection oid := by
    generalize deleteOne s.galleryCollection oid = l at hno
    induction l with
    | nil => rfl
    | cons x xs ih =>
      have hx : x._id ≠ oid := hno x (by simp)
      have hxs : ∀ y ∈ xs, y._id ≠ oid := fun y hy => hno y (by simp [hy])
      simp [deleteOne, hx, ih hxs]
  simp only [hfix]

theorem deleteGallery_idempotent_witness :
    ∃ s1 : Store,
      deleteGallery ⟨[], [⟨7, .string "Trip", .string "", 161, [], 1700000000000⟩,
          ⟨9, .string "Home", .string "", 161, [], 1700000000001⟩]⟩ "000000000000000000000007" =
        (⟨200, .success⟩, s1) ∧
      deleteGallery s1 "000000000000000000000007" = (⟨200, .success⟩, s1) ∧
      (∀ g ∈ s1.galleryCollection, g._id ≠ 7) ∧
      s1.galleryCollection =
        [(⟨7, .string "Trip", .string "", 161, [], 1700000000000⟩ : Gallery),
          ⟨9, .string "Home", .string "", 161, [], 1700000000001⟩].filter (fun g => decide (g._id ≠ 7)) ∧
      s1.usersCollection = [] :=
  (deleteGallery_idempotent ⟨[], [⟨7, .string "Trip", .string "", 161, [], 1700000000000⟩,
      ⟨9, .string "Home", .string "", 161, [], 1700000000001⟩]⟩ "000000000000000000000007"
    (by decide)).1 7 (by decide)

/-- C8, counterexample. On the identifier "abc" `deleteGallery` answers 500
with an error instead of reporting success. -/
theorem deleteGallery_malformed_id_not_success :
    deleteGallery ⟨[], [⟨7, .string "Trip", .string "", 161, [], 1700000000000⟩]⟩ "abc" =
      (⟨500, .error "Erreur suppression galerie"⟩,
        ⟨[], [⟨7, .string "Trip", .string "", 161, [], 1700000000000⟩]⟩) := by
  decide

/-! ## Listing, and the life of one gallery -/

theorem listByOwner_ok (s : Store) (ownerId : String) (oid : ObjectId)
    (hid : ObjectId.parse ownerId = some oid) :
    listByOwner s ownerId = ⟨200, .galleries (find s.galleryCollection oid)⟩ := by
  simp only [listByOwner, listByOwnerTry, newObjectId_ok hid, bind, Except.bind, pure,
    Except.pure]

theorem find_none (gs : List Gallery) (oid : ObjectId) (h : ∀ g ∈ gs, g.ownerId ≠ oid) :
    find gs oid = [] := by
  rw [find, List.filter_eq_nil_iff]
  intro g hg
  simpa using h g hg

/-- C10. For every store in which user U1 exists and owns no gallery, every
non-empty title and every uploaded file declared as `image/png`: creating a
gallery for U1 answers 201 with a gallery G1 whose media is empty; ingesting
the file into G1 as U1 answers 201 with a media record of type `image` that is
not a favourite; listing the galleries of U1 then answers exactly one gallery,
G1, whose media sequence is exactly that record; deleting G1 reports success;
listing again answers the empty sequence (and the store is back to what it
was).  Moreover, for every store and every well-formed owner identifier,
`listByOwner` answers exactly the stored galleries whose `ownerId` is that
identifier, in store order.  The `_id` generated for G1 is taken to be unused,
and `g1` is any string by which the client names that `_id`. -/
theorem gallery_lifecycle (env1 env2 : Env) (s : Store) (title u1 g1 : String)
    (description : Option String) (file : UploadedFile) (uid : ObjectId)
    (hu1 : ObjectId.parse u1 = some uid)
    (huser : ∃ u ∈ s.usersCollection, u._id = uid)
    (howns : ∀ g ∈ s.galleryCollection, g.ownerId ≠ uid)
    (htitle : title ≠ "")
    (hmime : file.mimetype = "image/png")
    (hfresh : ∀ g ∈ s.galleryCollection, g._id ≠ env1.genId)
    (hg1 : ObjectId.parse g1 = some env1.genId) :
    (∃ (G : Gallery) (m : Media) (s1 s2 s3 : Store),
      createGallery env1 s ⟨some title, description, some u1⟩ = (⟨201, .gallery G⟩, s1) ∧
      G.media = [] ∧ G.ownerId = uid ∧ G.title = .string title ∧ G._id = env1.genId ∧
      ingest env2 s1 g1 u1 (some file) = (⟨201, .media m⟩, s2) ∧
      m.type = .image ∧ m.isFavorite = false ∧ m.title = file.originalname ∧ m.ownerId = uid ∧
      listByOwner s2 u1 =
        ⟨200, .galleries [{ _id := G._id, title := G.title, description := G.description,
                            ownerId := G.ownerId, media := [m], createdAt := G.createdAt }]⟩ ∧
      deleteGallery s2 g1 = (⟨200, .success⟩, s3) ∧
      listByOwner s3 u1 = ⟨200, .galleries []⟩ ∧
      s3 = s) ∧
    (∀ (t : Store) (o : String) (oid : ObjectId), ObjectId.parse o = some oid →
      ∃ gs, listByOwner t o = ⟨200, .galleries gs⟩ ∧ gs.Sublist t.galleryCollection ∧
        ∀ g, g ∈ gs ↔ g ∈ t.galleryCollection ∧ g.ownerId = oid) := by
  constructor
  · have hm : mediaType file.mimetype = .image := by rw [hmime]; decide
    have hup : updateOne (s.galleryCollection ++ [newGallery env1 (.string title) (.ofOption description) uid])
        env1.genId (newMedia env2 file uid) =
        s.galleryCollection ++
          [{ newGallery env1 (.string title) (.ofOption description) uid with media := [newMedia env2 file uid] }] :=
      updateOne_split s.galleryCollection [] (newGallery env1 (.string title) (.ofOption description) uid)
        env1.genId (newMedia env2 file uid) rfl hfresh
    have hdel : ∀ G : Gallery, G._id = env1.genId →
        deleteOne (s.galleryCollection ++ [G]) env1.genId = s.galleryCollection := by
      intro G hG
      simpa using deleteOne_split s.galleryCollection [] G env1.genId hG hfresh
    refine ⟨newGallery env1 (.string title) (.ofOption description) uid, newMedia env2 file uid, _, _, _,
      createGallery_ok env1 s title u1 description uid htitle hu1 huser hfresh,
      rfl, rfl, rfl, rfl,
      ingest_push env2 _ g1 u1 file env1.genId uid hg1 hu1,
      hm, rfl, rfl, rfl, ?_, deleteGallery_ok _ g1 env1.genId hg1, ?_, ?_⟩
    · rw [listByOwner_ok _ u1 uid hu1]
      simp only [hup]
      simp [find, List.filter_append, newGallery]
      exact howns
    · rw [listByOwner_ok _ u1 uid hu1]
      simp only [hup]
      rw [hdel { newGallery env1 (.string title) (.ofOption description) uid with media := [newMedia env2 file uid] }
        rfl, find_none s.galleryCollection uid howns]
    · simp only [hup]
      rw [hdel { newGallery env1 (.string title) (.ofOption description) uid with media := [newMedia env2 file uid] }
        rfl]
  · intro t o oid ho
    refine ⟨find t.galleryCollection oid, listByOwner_ok t o oid ho, List.filter_sublist _, ?_⟩
    intro g
    simp [find, List.mem_filter]

theorem gallery_lifecycle_witness :
    ∃ (G : Gallery) (m : Media) (s1 s2 s3 : Store),
      createGallery ⟨1700000000000, 7⟩ ⟨[⟨161, "ana", "ana@x.org", "pw"⟩], []⟩
          ⟨some "Trip", none, some "0000000000000000000000a1"⟩ = (⟨201, .gallery G⟩, s1) ∧
      G.media = [] ∧ G.ownerId = 161 ∧ G.title = .string "Trip" ∧ G._id = 7 ∧
      ingest ⟨1700000000500, 8⟩ s1 "000000000000000000000007" "0000000000000000000000a1"
          (some ⟨"cat.png", "1700000000400-77.png", "image/png"⟩) = (⟨201, .media m⟩, s2) ∧
      m.type = .image ∧ m.isFavorite = false ∧ m.title = "cat.png" ∧ m.ownerId = 161 ∧
      listByOwner s2 "0000000000000000000000a1" =
        ⟨200, .galleries [{ _id := G._id, title := G.title, description := G.description,
                            ownerId := G.ownerId, media := [m], createdAt := G.createdAt }]⟩ ∧
      deleteGallery s2 "000000000000000000000007" = (⟨200, .success⟩, s3) ∧
      listByOwner s3 "0000000000000000000000a1" = ⟨200, .galleries []⟩ ∧
      s3 = ⟨[⟨161, "ana", "ana@x.org", "pw"⟩], []⟩ :=
  (gallery_lifecycle ⟨1700000000000, 7⟩ ⟨1700000000500, 8⟩
    ⟨[⟨161, "ana", "ana@x.org", "pw"⟩], []⟩ "Trip" "0000000000000000000000a1"
    "000000000000000000000007" none ⟨"cat.png", "1700000000400-77.png", "image/png"⟩ 161
    (by decide) ⟨⟨161, "ana", "ana@x.org", "pw"⟩, by simp, rfl⟩ (by simp) (by decide) rfl
    (by simp) (by decide)).1

/-! ## Identifiers of media records -/

/-- C5, the code at the failing input. From a store with one user and no
gallery, one `createGallery` and two `ingest` calls into that gallery that
read the same clock value leave a gallery whose two media records carry the
same `id`. -/
theorem media_ids_collide :
    (runCalls ⟨[⟨161, "ana", "ana@x.org", "pw"⟩], []⟩
      [.createGallery ⟨1700000000000, 7⟩ ⟨some "Trip", none, some "0000000000000000000000a1"⟩,
       .ingest ⟨1700000000500, 8⟩ "000000000000000000000007" "0000000000000000000000a1"
         (some ⟨"cat.png", "1700000000500-77.png", "image/png"⟩),
       .ingest ⟨1700000000500, 9⟩ "000000000000000000000007" "0000000000000000000000a1"
         (some ⟨"dog.png", "1700000000500-12.png", "image/png"⟩)]).galleryCollection.map
        (fun g => g.media.map Media.id) = [[1700000000500, 1700000000500]] ∧
    ¬ ([1700000000500, 1700000000500] : List Nat).Nodup := by
  decide

/-! ## Concurrent uploads into one gallery -/

theorem forall2_set {R : Upload → Task → Prop} {us : List Upload} {ts : List Task}
    (h : List.Forall₂ R us ts) (i : Nat) (t t1 : Task) (hi : ts[i]? = some t)
    (hR : ∀ u, R u t → R u t1) : List.Forall₂ R us (ts.set i t1) := by
  induction h generalizing i with
  | nil => simp at hi
  | @cons u x us xs hux hrest ih =>
    cases i with
    | zero =>
      simp only [List.getElem?_cons_zero, Option.some.injEq] at hi
      subst hi
      exact List.Forall₂.cons (hR u hux) hrest
    | succ j =>
      simp only [List.getElem?_cons_succ] at hi
      exact List.Forall₂.cons hux (ih j hi)

theorem filterMap_set_same (f : Task → Option Media) (ts : List Task) (i : Nat) (t t1 : Task)
    (hi : ts[i]? = some t) (hf : f t1 = f t) :
    (ts.set i t1).filterMap f = ts.filterMap f := by
  induction ts generalizing i with
  | nil => simp at hi
  | cons x xs ih =>
    cases i with
    | zero =>
      simp only [List.getElem?_cons_zero, Option.some.injEq] at hi
      subst hi
      simp [List.filterMap_cons, hf]
    | succ j =>
      simp only [List.getElem?_cons_succ] at hi
      simp [List.filterMap_cons, ih j hi]

theorem filterMap_set_new (f : Task → Option Media) (ts : List Task) (i : Nat) (t t1 : Task)
    (m : Media) (hi : ts[i]? = some t) (hf : f t = none) (hf1 : f t1 = some m) :
    List.Perm ((ts.set i t1).filterMap f) (m :: ts.filterMap f) := by
  induction ts generalizing i with
  | nil => simp at hi
  | cons x xs ih =>
    cases i with
    | zero =>
      simp only [List.getElem?_cons_zero, Option.some.injEq] at hi
      subst hi
      simp [List.filterMap_cons, hf, hf1]
    | succ j =>
      simp only [List.getElem?_cons_succ] at hi
      have h := ih j hi
      simp only [List.set_cons_succ, List.filterMap_cons]
      cases f x with
      | none => exact h
      | some y => exact (List.Perm.cons y h).trans (List.Perm.swap m y _)

theorem startTask_appends (env : Env) (u : Upload) (gid : ObjectId) (h : u.appendsTo gid) :
    ∃ m, u.builds m ∧ startTask env u = .issued gid m := by
  obtain ⟨hg, ⟨uid, hu⟩, file, hf⟩ := h
  refine ⟨newMedia env file uid, ⟨file, uid, hf, hu, rfl, rfl, rfl, rfl, rfl⟩, ?_⟩
  simp only [startTask, ingestPrepare, hf, newObjectId_ok hg, newObjectId_ok hu, bind,
    Except.bind, pure, Except.pure]

theorem ingestPrepare_cases (env : Env) (galleryId userId : String)
    (file : Option UploadedFile) :
    ingestPrepare env galleryId userId file = .ok (.respond ⟨400, .error "Fichier manquant"⟩) ∨
    (∃ gid m, ingestPrepare env galleryId userId file = .ok (.push gid m)) ∨
    ingestPrepare env galleryId userId file = .error () := by
  cases file with
  | none => exact Or.inl rfl
  | some f =>
    cases hu : ObjectId.parse userId with
    | none =>
      refine Or.inr (Or.inr ?_)
      simp only [ingestPrepare, newObjectId_error hu, bind, Except.bind]
    | some uid =>
      cases hg : ObjectId.parse galleryId with
      | none =>
        refine Or.inr (Or.inr ?_)
        simp only [ingestPrepare, newObjectId_ok hu, newObjectId_error hg, bind, Except.bind]
      | some gid =>
        refine Or.inr (Or.inl ⟨gid, newMedia env f uid, ?_⟩)
        simp only [ingestPrepare, newObjectId_ok hu, newObjectId_ok hg, bind, Except.bind,
          pure, Except.pure]

theorem startTask_pushed (env : Env) (u : Upload) :
    Task.pushed (startTask env u) = Task.pushed (.waiting u) := by
  rcases ingestPrepare_cases env u.galleryId u.userId u.file with h | ⟨gid, m, h⟩ | h <;>
    simp only [startTask, h] <;> rfl

theorem step_consistent (s : Store) (pre post : List Gallery) (g : Gallery)
    (uploads : List Upload) (hpre : ∀ x ∈ pre, x._id ≠ g._id) (c c1 : Server) (e : Event)
    (hc : c.consistent s pre post g uploads) (hstep : step c e = some c1) :
    c1.consistent s pre post g uploads := by
  obtain ⟨ms, hstore, hperm, htracks⟩ := hc
  cases e with
  | start i env =>
    simp only [step] at hstep
    split at hstep
    · next u hi =>
      simp only [Option.some.injEq] at hstep
      subst hstep
      refine ⟨ms, hstore, ?_, ?_⟩
      · rw [filterMap_set_same Task.pushed c.tasks i (.waiting u) (startTask env u) hi
          (startTask_pushed env u)]
        exact hperm
      · refine forall2_set htracks i (.waiting u) _ hi ?_
        rintro u0 ⟨hvalid, hcase⟩
        have hu0 : u0 = u := by
          rcases hcase with h | ⟨m, _, h | h | h⟩
          · exact (Task.waiting.inj h).symm
          · cases h
          · cases h
          · cases h
        subst hu0
        obtain ⟨m, hb, hm⟩ := startTask_appends env u0 g._id hvalid
        exact ⟨hvalid, Or.inr ⟨m, hb, Or.inl hm⟩⟩
    · cases hstep
  | apply i =>
    simp only [step] at hstep
    split at hstep
    · next gid m hi =>
      simp only [Option.some.injEq] at hstep
      subst hstep
      have hinfo : gid = g._id := by
        have hall : ∀ (us : List Upload) (ts : List Task) (j : Nat),
            List.Forall₂ (Task.tracks g._id) us ts → ts[j]? = some (.issued gid m) →
            gid = g._id := by
          intro us ts j h
          induction h generalizing j with
          | nil => intro hj; simp at hj
          | @cons u x us xs hux _ ih =>
            intro hj
            cases j with
            | zero =>
              simp only [List.getElem?_cons_zero, Option.some.injEq] at hj
              subst hj
              rcases hux.2 with h | ⟨m1, _, h | h | h⟩
              · cases h
              · exact (Task.issued.inj h).1
              · cases h
              · cases h
            | succ k =>
              simp only [List.getElem?_cons_succ] at hj
              exact ih k hj
        exact hall uploads c.tasks i htracks hi
      subst hinfo
      refine ⟨ms ++ [m], ?_, ?_, ?_⟩
      · simp only [hstore]
        rw [updateOne_split pre post { g with media := g.media ++ ms } g._id m rfl hpre]
        simp
      · have h1 := filterMap_set_new Task.pushed c.tasks i (.issued g._id m) (.applied m) m hi
          rfl rfl
        have h2 : List.Perm (ms ++ [m]) (m :: ms) := by
          exact List.perm_append_comm
        exact h2.trans ((List.Perm.cons m hperm).trans h1.symm)
      · refine forall2_set htracks i (.issued g._id m) _ hi ?_
        rintro u0 ⟨hvalid, hcase⟩
        rcases hcase with h | ⟨m1, hb, h | h | h⟩
        · cases h
        · have hm : m1 = m := ((Task.issued.inj h).2).symm
          subst hm
          exact ⟨hvalid, Or.inr ⟨m1, hb, Or.inr (Or.inl rfl)⟩⟩
        · cases h
        · cases h
    · cases hstep
  | resume i =>
    simp only [step] at hstep
    split at hstep
    · next m hi =>
      simp only [Option.some.injEq] at hstep
      subst hstep
      refine ⟨ms, hstore, ?_, ?_⟩
      · rw [filterMap_set_same Task.pushed c.tasks i (.applied m)
          (.finished ⟨201, .media m⟩) hi rfl]
        exact hperm
      · refine forall2_set htracks i (.applied m) _ hi ?_
        rintro u0 ⟨hvalid, hcase⟩
        rcases hcase with h | ⟨m1, hb, h | h | h⟩
        · cases h
        · cases h
        · have hm : m1 = m := (Task.applied.inj h).symm
          subst hm
          exact ⟨hvalid, Or.inr ⟨m1, hb, Or.inr (Or.inr rfl)⟩⟩
        · cases h
    · cases hstep

theorem runEvents_consistent (s : Store) (pre post : List Gallery) (g : Gallery)
    (uploads : List Upload) (hpre : ∀ x ∈ pre, x._id ≠ g._id) (events : List Event)
    (c c1 : Server) (hc : c.consistent s pre post g uploads)
    (hrun : runEvents c events = some c1) : c1.consistent s pre post g uploads := by
  induction events generalizing c with
  | nil =>
    simp only [runEvents, Option.some.injEq] at hrun
    exact hrun ▸ hc
  | cons e es ih =>
    simp only [runEvents] at hrun
    split at hrun
    · next c2 hstep =>
      exact ih c2 (step_consistent s pre post g uploads hpre c c2 e hc hstep) hrun
    · cases hrun

theorem tracks_waiting (gid : ObjectId) (uploads : List Upload)
    (h : ∀ u ∈ uploads, u.appendsTo gid) :
    List.Forall₂ (Task.tracks gid) uploads (uploads.map Task.waiting) := by
  induction uploads with
  | nil => exact List.Forall₂.nil
  | cons u us ih =>
    exact List.Forall₂.cons ⟨h u (by simp), Or.inl rfl⟩
      (ih (fun v hv => h v (by simp [hv])))

theorem filterMap_pushed_waiting (uploads : List Upload) :
    (uploads.map Task.waiting).filterMap Task.pushed = [] := by
  induction uploads with
  | nil => rfl
  | cons u us ih => simp [List.filterMap_cons, Task.pushed]

theorem finished_tasks (gid : ObjectId) (us : List Upload) (ts : List Task)
    (h : List.Forall₂ (Task.tracks gid) us ts) (hdone : ∀ t ∈ ts, ∃ r, t = .finished r) :
    List.Forall₂ (fun u t => ∃ m, t = Task.finished ⟨201, .media m⟩ ∧ u.builds m) us ts ∧
    (ts.filterMap Task.pushed).map (fun m => Task.finished ⟨201, .media m⟩) = ts := by
  induction h with
  | nil => exact ⟨List.Forall₂.nil, rfl⟩
  | @cons u t us ts hut _ ih =>
    obtain ⟨ih1, ih2⟩ := ih (fun x hx => hdone x (by simp [hx]))
    obtain ⟨r, hr⟩ := hdone t (by simp)
    have hm : ∃ m, t = Task.finished ⟨201, .media m⟩ ∧ u.builds m := by
      rcases hut.2 with h | ⟨m, hb, h | h | h⟩
      · rw [hr] at h; cases h
      · rw [hr] at h; cases h
      · rw [hr] at h; cases h
      · exact ⟨m, h, hb⟩
    obtain ⟨m, htm, hb⟩ := hm
    refine ⟨List.Forall₂.cons ⟨m, htm, hb⟩ ih1, ?_⟩
    subst htm
    simp [List.filterMap_cons, Task.pushed, ih2]

theorem runEvents_append (c c1 : Server) (es1 es2 : List Event)
    (h : runEvents c es1 = some c1) : runEvents c (es1 ++ es2) = runEvents c1 es2 := by
  induction es1 generalizing c with
  | nil =>
    simp only [runEvents, Option.some.injEq] at h
    subst h
    rfl
  | cons e es ih =>
    cases hstep : step c e with
    | none => simp [runEvents, hstep] at h
    | some c2 =>
      simp only [runEvents, hstep, List.cons_append] at h ⊢
      exact ih c2 h

theorem get_after (done rest : List Task) (t : Task) :
    (done ++ t :: rest)[done.length]? = some t := by
  induction done with
  | nil => simp
  | cons x xs ih => simpa using ih

theorem set_after (done rest : List Task) (t a : Task) :
    (done ++ t :: rest).set done.length a = done ++ a :: rest := by
  induction done with
  | nil => rfl
  | cons x xs ih => simp

theorem set_same (ts : List Task) (i : Nat) (t : Task) (hi : ts[i]? = some t) :
    ts.set i t = ts := by
  induction ts generalizing i with
  | nil => rfl
  | cons x xs ih =>
    cases i with
    | zero =>
      simp only [List.getElem?_cons_zero, Option.some.injEq] at hi
      simp [hi]
    | succ j =>
      simp only [List.getElem?_cons_succ] at hi
      simp [ih j hi]

theorem get_set (ts : List Task) (i : Nat) (t a : Task) (hi : ts[i]? = some t) :
    (ts.set i a)[i]? = some a := by
  induction ts generalizing i with
  | nil => simp at hi
  | cons x xs ih =>
    cases i with
    | zero => simp
    | succ j =>
      simp only [List.getElem?_cons_succ] at hi
      simpa using ih j hi

theorem set_twice (ts : List Task) (i : Nat) (a b : Task) :
    (ts.set i a).set i b = ts.set i b := by
  induction ts generalizing i with
  | nil => rfl
  | cons x xs ih =>
    cases i with
    | zero => rfl
    | succ j => simp [ih j]

/-- Whatever stage a request is at, its remaining steps can be run, and they
touch no other request. -/
theorem finish_task (env : Env) (c : Server) (i : Nat) (t : Task) (hi : c.tasks[i]? = some t) :
    ∃ (es : List Event) (c1 : Server) (r : Response),
      runEvents c es = some c1 ∧ c1.tasks = c.tasks.set i (.finished r) := by
  have happlied : ∀ (c : Server) (m : Media), c.tasks[i]? = some (.applied m) →
      ∃ (es : List Event) (c1 : Server) (r : Response),
        runEvents c es = some c1 ∧ c1.tasks = c.tasks.set i (.finished r) := by
    intro c m h
    exact ⟨[.resume i], { c with tasks := c.tasks.set i (.finished ⟨201, .media m⟩) },
      ⟨201, .media m⟩, by simp [runEvents, step, h], rfl⟩
  have hissued : ∀ (c : Server) (gid : ObjectId) (m : Media),
      c.tasks[i]? = some (.issued gid m) →
      ∃ (es : List Event) (c1 : Server) (r : Response),
        runEvents c es = some c1 ∧ c1.tasks = c.tasks.set i (.finished r) := by
    intro c gid m h
    obtain ⟨es, c1, r, hrun, htasks⟩ := happlied
      { store := { c.store with
                   galleryCollection := updateOne c.store.galleryCollection gid m }
        tasks := c.tasks.set i (.applied m) } m (get_set c.tasks i _ _ h)
    refine ⟨.apply i :: es, c1, r, ?_, ?_⟩
    · simp only [runEvents, step, h]
      exact hrun
    · rw [htasks]
      exact set_twice c.tasks i _ _
  cases t with
  | finished r => exact ⟨[], c, r, rfl, (set_same c.tasks i _ hi).symm⟩
  | applied m => exact happlied c m hi
  | issued gid m => exact hissued c gid m hi
  | waiting u =>
    have hstart : runEvents c [.start i env] =
        some { c with tasks := c.tasks.set i (startTask env u) } := by
      simp [runEvents, step, hi]
    cases hst : startTask env u with
    | finished r =>
      refine ⟨[.start i env], _, r, hstart, ?_⟩
      simp only [hst]
    | waiting v =>
      rcases ingestPrepare_cases env u.galleryId u.userId u.file with h | ⟨gid, m, h⟩ | h <;>
        simp [startTask, h] at hst
    | applied m =>
      rcases ingestPrepare_cases env u.galleryId u.userId u.file with h | ⟨gid, m, h⟩ | h <;>
        simp [startTask, h] at hst
    | issued gid m =>
      obtain ⟨es, c1, r, hrun, htasks⟩ := hissued
        { c with tasks := c.tasks.set i (startTask env u) } gid m
        (by rw [hst]; exact get_set c.tasks i _ _ hi)
      refine ⟨[.start i env] ++ es, c1, r, ?_, ?_⟩
      · rw [runEvents_append _ _ _ _ hstart]
        exact hrun
      · rw [htasks]
        exact set_twice c.tasks i _ _

theorem finish_all (env : Env) (rest done : List Task) (store : Store)
    (hdone : ∀ t ∈ done, ∃ r, t = Task.finished r) :
    ∃ (es : List Event) (c1 : Server),
      runEvents ⟨store, done ++ rest⟩ es = some c1 ∧ ∀ t ∈ c1.tasks, ∃ r, t = Task.finished r := by
  induction rest generalizing done store with
  | nil => exact ⟨[], ⟨store, done ++ []⟩, rfl, by simpa using hdone⟩
  | cons t rest ih =>
    have hi : (⟨store, done ++ t :: rest⟩ : Server).tasks[done.length]? = some t :=
      get_after done rest t
    obtain ⟨es, c1, r, hrun, htasks⟩ := finish_task env ⟨store, done ++ t :: rest⟩ done.length t hi
    have hshape : c1.tasks = (done ++ [Task.finished r]) ++ rest := by
      rw [htasks]
      simp only [set_after done rest t _, List.append_assoc, List.singleton_append]
    have hdone1 : ∀ x ∈ done ++ [Task.finished r], ∃ r1, x = Task.finished r1 := by
      intro x hx
      rcases List.mem_append.1 hx with hx | hx
      · exact hdone x hx
      · exact ⟨r, by simpa using hx⟩
    obtain ⟨es2, c2, hrun2, hall⟩ := ih (done ++ [Task.finished r]) c1.store hdone1
    refine ⟨es ++ es2, c2, ?_, hall⟩
    rw [runEvents_append _ _ _ _ hrun]
    have hc1 : c1 = ⟨c1.store, (done ++ [Task.finished r]) ++ rest⟩ := by
      cases c1
      simp only at hshape
      simp [hshape]
    rw [hc1]
    exact hrun2

/-- C6. For every store with a gallery `g` and every list of N uploads that
reach the append on that gallery (its identifier, a well-formed uploader, a
file), started concurrently, and for every interleaving of their steps (start
of the handler, application of the `$push` by the store, answer of the
handler): the interleaving can always be continued until all N requests have
finished; and whenever all N requests have finished, in whatever order, the
store differs from the initial one only in the media of `g`, which is its
previous media followed by exactly N new records `ms`; these records are, up
to their order, the N records answered by the requests (one entry per call,
none lost, none duplicated); and the record answered by each request is the
one built from that request's file and uploader. -/
theorem concurrent_appends (s : Store) (pre post : List Gallery) (g : Gallery)
    (uploads : List Upload) (events : List Event) (c : Server)
    (hsplit : s.galleryCollection = pre ++ g :: post)
    (hpre : ∀ x ∈ pre, x._id ≠ g._id)
    (hvalid : ∀ u ∈ uploads, u.appendsTo g._id)
    (hrun : runEvents ⟨s, uploads.map Task.waiting⟩ events = some c) :
    (∃ (more : List Event) (c1 : Server),
      runEvents ⟨s, uploads.map Task.waiting⟩ (events ++ more) = some c1 ∧
      ∀ t ∈ c1.tasks, ∃ r, t = Task.finished r) ∧
    ((∀ t ∈ c.tasks, ∃ r, t = Task.finished r) →
      ∃ ms : List Media,
        c.store =
          { usersCollection := s.usersCollection
            galleryCollection :=
              pre ++ { _id := g._id, title := g.title, description := g.description,
                       ownerId := g.ownerId, media := g.media ++ ms,
                       createdAt := g.createdAt } :: post } ∧
        ms.length = uploads.length ∧
        List.Perm (ms.map (fun m => Task.finished ⟨201, .media m⟩)) c.tasks ∧
        List.Forall₂ (fun u t => ∃ m, t = Task.finished ⟨201, .media m⟩ ∧ u.builds m)
          uploads c.tasks) := by
  constructor
  · obtain ⟨more, c1, hmore, hall⟩ := finish_all ⟨0, 0⟩ c.tasks [] c.store (by simp)
    refine ⟨more, c1, ?_, hall⟩
    rw [runEvents_append _ _ _ _ hrun]
    exact hmore
  · intro hdone
    have hinit : Server.consistent s pre post g uploads ⟨s, uploads.map Task.waiting⟩ := by
      refine ⟨[], ?_, ?_, tracks_waiting g._id uploads hvalid⟩
      · cases s
        simp only at hsplit
        simp [hsplit]
      · rw [filterMap_pushed_waiting]
    obtain ⟨ms, hstore, hperm, htracks⟩ :=
      runEvents_consistent s pre post g uploads hpre events _ c hinit hrun
    obtain ⟨hall, hmap⟩ := finished_tasks g._id uploads c.tasks htracks hdone
    refine ⟨ms, hstore, ?_, ?_, hall⟩
    · have h1 : ms.length = (c.tasks.filterMap Task.pushed).length := hperm.length_eq
      have h2 : (c.tasks.filterMap Task.pushed).length = c.tasks.length := by
        conv_rhs => rw [← hmap]
        simp
      rw [h1, h2]
      exact htracks.length_eq.symm
    · have h3 := hperm.map (fun m => Task.finished ⟨201, .media m⟩)
      rw [hmap] at h3
      exact h3

theorem concurrent_appends_witness :
    ∃ ms : List Media,
      (⟨[], [⟨7, .string "Trip", .string "", 161,
          [⟨5, "dog.mp4", "/uploads/1-12.mp4", .video, 178, false⟩,
           ⟨5, "cat.png", "/uploads/1-77.png", .image, 161, false⟩], 1700000000000⟩]⟩ : Store) =
        { usersCollection := []
          galleryCollection :=
            [] ++ { _id := 7, title := .string "Trip", description := .string "", ownerId := 161,
                    media := [] ++ ms, createdAt := 1700000000000 } :: [] } ∧
      ms.length = 2 :=
  let ⟨ms, h1, h2, _, _⟩ :=
    (concurrent_appends ⟨[], [⟨7, .string "Trip", .string "", 161, [], 1700000000000⟩]⟩ [] []
      ⟨7, .string "Trip", .string "", 161, [], 1700000000000⟩
      [⟨"000000000000000000000007", "0000000000000000000000a1",
          some ⟨"cat.png", "1-77.png", "image/png"⟩⟩,
       ⟨"000000000000000000000007", "0000000000000000000000b2",
          some ⟨"dog.mp4", "1-12.mp4", "video/mp4"⟩⟩]
      [.start 0 ⟨5, 0⟩, .start 1 ⟨5, 0⟩, .apply 1, .resume 1, .apply 0, .resume 0]
      ⟨⟨[], [⟨7, .string "Trip", .string "", 161,
          [⟨5, "dog.mp4", "/uploads/1-12.mp4", .video, 178, false⟩,
           ⟨5, "cat.png", "/uploads/1-77.png", .image, 161, false⟩], 1700000000000⟩]⟩,
        [.finished ⟨201, .media ⟨5, "cat.png", "/uploads/1-77.png", .image, 161, false⟩⟩,
         .finished ⟨201, .media ⟨5, "dog.mp4", "/uploads/1-12.mp4", .video, 178, false⟩⟩]⟩
      rfl (by simp)
      (by
        intro u hu
        simp only [List.mem_cons, List.mem_singleton, List.not_mem_nil, or_false] at hu
        rcases hu with rfl | rfl
        · exact ⟨by decide, ⟨161, by decide⟩, _, rfl⟩
        · exact ⟨by decide, ⟨178, by decide⟩, _, rfl⟩)
      (by decide)).2
      (by
        intro t ht
        simp only [List.mem_cons, List.mem_singleton, List.not_mem_nil, or_false] at ht
        rcases ht with rfl | rfl <;> exact ⟨_, rfl⟩)
  ⟨ms, h1, h2⟩

/-! ## The index on `_id` along any sequence of calls -/

theorem updateOne_ids (gs : List Gallery) (gid : ObjectId) (m : Media) :
    (updateOne gs gid m).map Gallery._id = gs.map Gallery._id := by
  induction gs with
  | nil => rfl
  | cons x xs ih =>
    by_cases hx : x._id = gid
    · simp [updateOne, hx]
    · simp [updateOne, hx, ih]

theorem deleteOne_sublist (gs : List Gallery) (oid : ObjectId) :
    (deleteOne gs oid).Sublist gs := by
  induction gs with
  | nil => exact List.Sublist.slnil
  | cons x xs ih =>
    by_cases hx : x._id = oid
    · simp [deleteOne, hx]
    · simp [deleteOne, hx, ih]

theorem insertOne_uniqueIds (gs gs1 : List Gallery) (doc : Gallery)
    (h : (gs.map Gallery._id).Nodup) (hins : insertOne gs doc = .ok gs1) :
    (gs1.map Gallery._id).Nodup := by
  unfold insertOne at hins
  split at hins
  · cases hins
  · next hany =>
    cases hins
    rw [List.map_append, List.nodup_append]
    refine ⟨h, by simp, ?_⟩
    intro a ha hb
    simp only [List.map_cons, List.map_nil, List.mem_singleton] at hb
    subst hb
    obtain ⟨x, hx, hxa⟩ := List.mem_map.1 ha
    exact hany (List.any_eq_true.2 ⟨x, hx, by simp [hxa]⟩)

theorem postGallery_uniqueIds (env : Env) (conv : Converted) (s : Store)
    (body : Option JsBody) (h : s.uniqueIds) : (postGallery env conv s body).2.uniqueIds := by
  cases body with
  | none => exact h
  | some body =>
    unfold postGallery postGalleryTry
    by_cases hf : (!body.title.truthy || !body.ownerId.truthy) = true
    · simp only [hf, if_true]
      exact h
    · simp only [hf, Bool.false_eq_true, if_false, bind, Except.bind]
      cases objectIdOf conv.lookup body.ownerId with
      | error e => exact h
      | ok oid =>
        simp only []
        cases findUser s.usersCollection oid with
        | none => exact h
        | some u =>
          simp only []
          cases objectIdOf conv.stored body.ownerId with
          | error e => exact h
          | ok oid2 =>
            simp only []
            cases hins : insertOne s.galleryCollection
                (newGallery env body.title body.description oid2) with
            | error e => exact h
            | ok gs1 => exact insertOne_uniqueIds _ _ _ h hins

theorem createGallery_uniqueIds (env : Env) (s : Store) (body : GalleryBody)
    (h : s.uniqueIds) : (createGallery env s body).2.uniqueIds :=
  postGallery_uniqueIds env _ s _ h

theorem ingest_uniqueIds (env : Env) (s : Store) (galleryId userId : String)
    (file : Option UploadedFile) (h : s.uniqueIds) :
    (ingest env s galleryId userId file).2.uniqueIds := by
  unfold ingest ingestTry
  rcases ingestPrepare_cases env galleryId userId file with hp | ⟨gid, m, hp⟩ | hp
  · simp only [hp, bind, Except.bind]
    exact h
  · simp only [hp, bind, Except.bind]
    show ((updateOne s.galleryCollection gid m).map Gallery._id).Nodup
    rw [updateOne_ids]
    exact h
  · simp only [hp, bind, Except.bind]
    exact h

theorem deleteGallery_uniqueIds (s : Store) (id : String) (h : s.uniqueIds) :
    (deleteGallery s id).2.uniqueIds := by
  cases hid : ObjectId.parse id with
  | none =>
    rw [deleteGallery_throws s id hid]
    exact h
  | some oid =>
    rw [deleteGallery_ok s id oid hid]
    exact List.Nodup.sublist ((deleteOne_sublist s.galleryCollection oid).map Gallery._id) h

/-- The ids of the stored galleries stay pairwise distinct along every
sequence of calls, for every value the clock and the id generator return. -/
theorem runCalls_uniqueIds (calls : List Call) (s : Store) (h : s.uniqueIds) :
    (runCalls s calls).uniqueIds := by
  induction calls generalizing s with
  | nil => exact h
  | cons c cs ih =>
    refine ih (Call.run s c) ?_
    cases c with
    | createGallery env body => exact createGallery_uniqueIds env s body h
    | ingest env galleryId userId file => exact ingest_uniqueIds env s galleryId userId file h
    | deleteGallery id => exact deleteGallery_uniqueIds s id h

/-- A request served alone goes through its three steps and leaves what the
handler `ingest` computes in one piece. -/
theorem runEvents_alone (env : Env) (s : Store) (u : Upload) (gid : ObjectId)
    (h : u.appendsTo gid) :
    runEvents ⟨s, [.waiting u]⟩ [.start 0 env, .apply 0, .resume 0] =
      some ⟨(ingest env s u.galleryId u.userId u.file).2,
        [.finished (ingest env s u.galleryId u.userId u.file).1]⟩ := by
  obtain ⟨hg, ⟨uid, hu⟩, file, hf⟩ := h
  have hstart : startTask env u = .issued gid (newMedia env file uid) := by
    simp only [startTask, ingestPrepare, hf, newObjectId_ok hg, newObjectId_ok hu, bind,
      Except.bind, pure, Except.pure]
  rw [hf, ingest_push env s u.galleryId u.userId file gid uid hg hu]
  simp [runEvents, step, hstart]

end Pixhub
